import Mathlib

/-!
Verification of the append-only Lisp interpreter (src/main.c) against its
natural-language specification.

The C source is shallowly embedded below.  Conventions used throughout:

* C `int` values are modelled as `Int`, with 32-bit two's-complement
  wraparound applied through `wrap32` wherever the C program performs
  arithmetic whose result is stored in an `int` (the spec, section 4.3,
  documents silent wraparound for the arithmetic of the evaluator).
* Abnormal control flow is modelled by the `Outcome` type:
  `Outcome.exited msg` models `parser_bail`, which prints
  `parser error: <msg>` to stderr and calls `exit(1)`, terminating the
  host process; `Outcome.ub desc` models undefined behaviour in the C
  source (null-pointer dereference, read of an uninitialised field,
  division by zero); `Outcome.fuelOut` is a modelling artifact used for
  the recursion fuel of the parser and is never produced when the fuel
  is positive on the paths proved below.
* The C struct `Tokenizer` is returned by value and mutated through
  pointers; the embedding passes the corresponding state explicitly.
  Its field `t` is deliberately left uninitialised by `tokenizer_init`
  (src/main.c:96, "leave t undefined"); the embedding makes that garbage
  value an explicit parameter `g` of `tokenizer_init` and `eval_string`,
  so that theorems can quantify over every possible indeterminate value.
* `struct Tree*` is modelled by `TreePtr` (null or a pointee), keeping
  the source's convention that a leaf is recognised by a null `left`
  pointer.
-/

namespace AppendOnly

/-- Outcome of running a fragment of the C program: a normal value, a
`parser_bail` process exit carrying the full stderr line, undefined
behaviour, or exhaustion of the modelling fuel. -/
inductive Outcome (α : Type) where
  | ok : α → Outcome α
  | exited : String → Outcome α
  | ub : String → Outcome α
  | fuelOut : Outcome α
deriving DecidableEq, Repr

/-- Sequencing of outcomes: abnormal results propagate, matching the C
control flow where `exit(1)` and undefined behaviour abort everything. -/
def obind {α β : Type} : Outcome α → (α → Outcome β) → Outcome β
  | .ok a, f => f a
  | .exited m, _ => .exited m
  | .ub m, _ => .ub m
  | .fuelOut, _ => .fuelOut

@[simp] theorem obind_ok {α β : Type} (a : α) (f : α → Outcome β) :
    obind (.ok a) f = f a := rfl

@[simp] theorem obind_exited {α β : Type} (m : String) (f : α → Outcome β) :
    obind (.exited m) f = .exited m := rfl

@[simp] theorem obind_ub {α β : Type} (m : String) (f : α → Outcome β) :
    obind (.ub m) f = .ub m := rfl

@[simp] theorem obind_fuelOut {α β : Type} (f : α → Outcome β) :
    obind (.fuelOut) f = .fuelOut := rfl

/-- 32-bit two's-complement wraparound, applied where the C program
stores an arithmetic result in an `int`. -/
def wrap32 (x : Int) : Int :=
  (x + 2147483648).emod 4294967296 - 2147483648

/-- src/main.c:57-61. A token: an `int` type tag plus a slice of the
original string.  The C field `s` is a `const char*` pointing into the
source text; it is modelled as the suffix of the source starting at the
token, and `n` is the length of the span. -/
structure Token where
  t : Int
  s : List Char
  n : Nat
deriving DecidableEq, Repr

/-- src/main.c:125. -/
def TOKEN_LPAREN : Int := 1
/-- src/main.c:126. -/
def TOKEN_RPAREN : Int := 2
/-- src/main.c:127. -/
def TOKEN_NUM : Int := 3
/-- src/main.c:128. -/
def TOKEN_PLUS : Int := 4
/-- src/main.c:129. -/
def TOKEN_MINUS : Int := 5
/-- src/main.c:130. -/
def TOKEN_MUL : Int := 6
/-- src/main.c:131. -/
def TOKEN_DIV : Int := 7
/-- src/main.c:132. -/
def TOKEN_EOF : Int := 8
/-- src/main.c:133. -/
def TOKEN_UNKNOWN : Int := 9

/-- src/main.c:77-85. Tokenizer state: source string, index of the next
character to read, length of the source, and the current token. -/
structure Tokenizer where
  p : List Char
  i : Nat
  n : Nat
  t : Token
deriving DecidableEq, Repr

/-- src/main.c:91-98.  `tokenizer_init` sets `p`, `i` and `n` but
deliberately leaves the current-token field `t` undefined ("leave t
undefined; users must call tokenizer_advance() first").  The extra
argument `g` is the indeterminate value that the uninitialised C struct
field happens to hold; theorems quantify over it. -/
def tokenizer_init (p : List Char) (g : Token) : Tokenizer :=
  { p := p, i := 0, n := p.length, t := g }

/-- src/main.c:102-104. -/
def tokenizer_done (tz : Tokenizer) : Bool :=
  tz.i ≥ tz.n

/-- src/main.c:107-109: returns the `t` field. -/
def tokenizer_current (tz : Tokenizer) : Token :=
  tz.t

/-- True for the ASCII whitespace characters the lexer is to skip. -/
def isWsChar (c : Char) : Bool :=
  c = ' ' || c = '\t' || c = '\n' || c = '\r'

/-- Number of leading whitespace characters of a string. -/
def wsRun : List Char → Nat
  | [] => 0
  | c :: cs => if isWsChar c then wsRun cs + 1 else 0

/-- Number of leading ASCII digits of a string. -/
def digitRun : List Char → Nat
  | [] => 0
  | c :: cs => if c.isDigit then digitRun cs + 1 else 0

/-- Modelled from the spec: `tokenizer_advance` is declared at
src/main.c:71 but no definition appears anywhere in the source.  This
definition follows spec section 4.1: skip ASCII whitespace, then
classify the next character — `(` `)` `+` `-` `*` `/` become the
single-character tokens, a digit starts a maximal NUMBER run, any other
character is UNKNOWN, and end of input is END (EOF); the scan offset and
the one-token lookahead buffer are updated accordingly. -/
def tokenizer_advance (tz : Tokenizer) : Tokenizer :=
  let j := tz.i + wsRun (tz.p.drop tz.i)
  let rest := tz.p.drop j
  match rest with
  | [] => { tz with i := j, t := { t := TOKEN_EOF, s := [], n := 0 } }
  | c :: _ =>
    if c = '(' then { tz with i := j + 1, t := { t := TOKEN_LPAREN, s := rest, n := 1 } }
    else if c = ')' then { tz with i := j + 1, t := { t := TOKEN_RPAREN, s := rest, n := 1 } }
    else if c = '+' then { tz with i := j + 1, t := { t := TOKEN_PLUS, s := rest, n := 1 } }
    else if c = '-' then { tz with i := j + 1, t := { t := TOKEN_MINUS, s := rest, n := 1 } }
    else if c = '*' then { tz with i := j + 1, t := { t := TOKEN_MUL, s := rest, n := 1 } }
    else if c = '/' then { tz with i := j + 1, t := { t := TOKEN_DIV, s := rest, n := 1 } }
    else if c.isDigit then
      let k := digitRun rest
      { tz with i := j + k, t := { t := TOKEN_NUM, s := rest, n := k } }
    else { tz with i := j + 1, t := { t := TOKEN_UNKNOWN, s := rest, n := 1 } }

/-- src/main.c:279-281: the parser wraps a tokenizer by value. -/
structure Parser where
  tz : Tokenizer
deriving DecidableEq, Repr

/-- src/main.c:347-351: copies the tokenizer into the parser. -/
def parser_init (tz : Tokenizer) : Parser :=
  { tz := tz }

/-- src/main.c:285-287. -/
def parser_done (p : Parser) : Bool :=
  tokenizer_done p.tz

/-- src/main.c:289-291. -/
def parser_current (p : Parser) : Token :=
  tokenizer_current p.tz

/-- src/main.c:293-295. -/
def parser_advance (p : Parser) : Parser :=
  { tz := tokenizer_advance p.tz }

/-- src/main.c:179-182: `parser_bail` prints `parser error: <msg>` to
stderr and calls `exit(1)`.  This computes the stderr line carried by
the `Outcome.exited` constructor that models the process exit. -/
def bail_output (msg : String) : String :=
  "parser error: " ++ msg ++ "\n"

/-- src/main.c:266-272: read the current token, bail with
"unexpected token type" if its type differs from `t`, otherwise return
it.  Note that the body contains no call to `parser_advance`: the
parser state is returned unchanged on success. -/
def consume (p : Parser) (t : Int) : Outcome (Token × Parser) :=
  let tk := parser_current p
  if tk.t ≠ t then .exited (bail_output ("unexpected token type"))
  else .ok (tk, p)

/-- src/main.c:198-200. -/
def is_op_token (t : Int) : Bool :=
  t = TOKEN_PLUS || t = TOKEN_MINUS || t = TOKEN_MUL || t = TOKEN_DIV

mutual
/-- src/main.c:140-146, with `struct Tree*` modelled by `TreePtr`.  A
node carries two child pointers, a `value` field and an `op` field; the
source recognises a branching node by `left != NULL`.  `value` and `op`
are `Option`s because each constructor function initialises only one of
them, leaving the other indeterminate. -/
inductive Tree where
  | mk (left : TreePtr) (right : TreePtr) (value : Option Int) (op : Option Char)

/-- Model of `struct Tree*`: either NULL or a pointer to a node. -/
inductive TreePtr where
  | null
  | ptr (tr : Tree)
end

/-- src/main.c:151-157: allocates a node and sets `left`, `right` and
`op`; the `value` field is left uninitialised (`none`). -/
def binary_node (op : Char) (left right : TreePtr) : Tree :=
  .mk left right none (some op)

/-- src/main.c:159-165: allocates a node, sets `value` and nulls both
child pointers; the `op` field is left uninitialised (`none`). -/
def leaf_node (x : Int) : Tree :=
  .mk .null .null (some x) none

/-- C `strtol(s, NULL, 10)` restricted to what the source exercises:
skip leading whitespace, an optional sign, then a maximal run of
digits; returns 0 when no digits follow. -/
def strtolDigits : List Char → Int → Int
  | [], acc => acc
  | c :: cs, acc =>
    if c.isDigit then strtolDigits cs (acc * 10 + (c.toNat - 48 : Int))
    else acc

/-- C `strtol` with base 10 (sign and whitespace handling included). -/
def strtol (s : List Char) : Int :=
  let s1 := s.drop (wsRun s)
  match s1 with
  | '-' :: rest => - strtolDigits rest 0
  | '+' :: rest => strtolDigits rest 0
  | _ => strtolDigits s1 0

/-- src/main.c:207-218: `match_expression` — consume `(`, require an
operator token, advance past it, parse both operands recursively,
consume `)`, and build a branching node whose operator character is
`*t.s`, the first character of the operator token's span (dereferencing
an empty span is undefined behaviour).  The `fuel` argument is a
modelling artifact bounding the recursion depth; the C recursion has no
such bound. -/
def match_expression : Nat → Parser → Outcome (Tree × Parser)
  | 0, _ => .fuelOut
  | fuel + 1, p =>
    obind (consume p TOKEN_LPAREN) fun (_, p1) =>
    let t := parser_current p1
    if is_op_token t.t then
      let p2 := parser_advance p1
      obind (match_expression fuel p2) fun (left, p3) =>
      obind (match_expression fuel p3) fun (right, p4) =>
      obind (consume p4 TOKEN_RPAREN) fun (_, p5) =>
      match t.s with
      | [] => .ub ("dereference of empty token span")
      | c :: _ => .ok (binary_node c (.ptr left) (.ptr right), p5)
    else .exited (bail_output ("expected op"))

/-- src/main.c:186-192: parse one expression with `match_expression`,
then bail with "trailing input" unless the parser is done. -/
def parser_parse2 (fuel : Nat) (p : Parser) : Outcome (Tree × Parser) :=
  obind (match_expression fuel p) fun (r, p1) =>
  if parser_done p1 then .ok (r, p1)
  else .exited (bail_output ("trailing input"))

/-- src/main.c:364-367: delegates to `parser_parse2` and returns the
pointee by value. -/
def parser_parse (fuel : Nat) (p : Parser) : Outcome (Tree × Parser) :=
  obind (parser_parse2 fuel p) fun (tr, p1) => .ok (tr, p1)

mutual
/-- src/main.c:227-237: the rewritten expression parser that also
handles the NUMBER base case; on a NUMBER token it advances and builds
a leaf from `strtol` of the token span (converted to `int`, hence
`wrap32`).  Not reachable from `eval_string`. -/
def match_expression2 : Nat → Parser → Outcome (Tree × Parser)
  | 0, _ => .fuelOut
  | fuel + 1, p =>
    let t := parser_current p
    if t.t = TOKEN_LPAREN then match_binary_expression fuel p
    else if t.t = TOKEN_NUM then
      let p1 := parser_advance p
      .ok (leaf_node (wrap32 (strtol t.s)), p1)
    else .exited (bail_output ("expected expression"))

/-- src/main.c:241-252: like the old `match_expression` but recursing
through `match_expression2`.  Not reachable from `eval_string`. -/
def match_binary_expression : Nat → Parser → Outcome (Tree × Parser)
  | 0, _ => .fuelOut
  | fuel + 1, p =>
    obind (consume p TOKEN_LPAREN) fun (_, p1) =>
    let t := parser_current p1
    if is_op_token t.t then
      let p2 := parser_advance p1
      obind (match_expression2 fuel p2) fun (left, p3) =>
      obind (match_expression2 fuel p3) fun (right, p4) =>
      obind (consume p4 TOKEN_RPAREN) fun (_, p5) =>
      match t.s with
      | [] => .ub ("dereference of empty token span")
      | c :: _ => .ok (binary_node c (.ptr left) (.ptr right), p5)
    else .exited (bail_output ("expected op"))
end

/-- src/main.c:255-261: `parser_parse2` rewritten over
`match_expression2`.  Never called anywhere in the source. -/
def parser_parse3 (fuel : Nat) (p : Parser) : Outcome (Tree × Parser) :=
  obind (match_expression2 fuel p) fun (r, p1) =>
  if parser_done p1 then .ok (r, p1)
  else .exited (bail_output ("trailing input"))

/-- src/main.c:312-314: returns the `value` field; reading the field of
a leaf built by `binary_node` (where it is uninitialised) is modelled
as undefined behaviour. -/
def eval_leaf (tr : Tree) : Outcome Int :=
  match tr with
  | .mk _ _ (some v) _ => .ok v
  | .mk _ _ none _ => .ub ("read of indeterminate value field")

/-- The operator dispatch of `eval_binary` (src/main.c:319-330): the
if-else chain on the `op` character applied to the two child results.
`+`, `-`, `*` are wrapping 32-bit arithmetic; `/` is the raw C division
`left / right` (truncating toward zero), undefined behaviour when
`right == 0`; any other character falls through to `return -1`
("should never happen"); reading the `op` field of a node where it was
never initialised (`none`) is undefined behaviour. -/
def evalOp (op : Option Char) (left right : Int) : Outcome Int :=
  match op with
  | none => .ub ("read of indeterminate op field")
  | some c =>
    if c = '+' then .ok (wrap32 (left + right))
    else if c = '-' then .ok (wrap32 (left - right))
    else if c = '*' then .ok (wrap32 (left * right))
    else if c = '/' then
      if right = 0 then .ub ("division by zero")
      else .ok (wrap32 (Int.tdiv left right))
    else .ok (-1)

mutual
/-- src/main.c:335-341: dispatches on `tr->left != NULL`; dereferencing
a NULL argument is undefined behaviour. -/
def eval2 : TreePtr → Outcome Int
  | .null => .ub ("null pointer dereference")
  | .ptr tr =>
    match tr with
    | .mk .null _ _ _ => eval_leaf tr
    | .mk (.ptr _) _ _ _ => eval_binary tr

/-- src/main.c:316-331: evaluate both children (left first), then
combine according to the `op` character via `evalOp`. -/
def eval_binary : Tree → Outcome Int
  | .mk l r _ op =>
    obind (eval2 l) fun left =>
    obind (eval2 r) fun right =>
    evalOp op left right
end

/-- src/main.c:353-358: the public entry point — initialise a tokenizer
and a parser, run `parser_parse`, and evaluate the resulting tree.  `g`
is the indeterminate value of the never-initialised current-token field
(see `tokenizer_init`); the fuel passed to the parser is positive and
otherwise irrelevant to the results proved below. -/
def eval_string (p : List Char) (g : Token) : Outcome Int :=
  let tz := tokenizer_init p g
  let pr := parser_init tz
  obind (parser_parse (p.length + 1) pr) fun (tr, _) =>
  eval2 (.ptr tr)

/-- True for the four supported operator characters. -/
def validOpChar (c : Char) : Bool :=
  c = '+' || c = '-' || c = '*' || c = '/'

/-- `validOpChar` on the possibly-uninitialised `op` field. -/
def validOpt (op : Option Char) : Bool :=
  match op with
  | some c => validOpChar c
  | none => false

mutual
/-- The parser invariant of spec section 3: every branching node (one
whose `left` pointer is non-null, the source's leaf test) carries one
of the four supported operator characters. -/
def validOps : Tree → Bool
  | .mk .null _ _ _ => true
  | .mk (.ptr l) r _ op => validOpt op && validOps l && validOpsPtr r

/-- `validOps` lifted to a possibly-null pointer. -/
def validOpsPtr : TreePtr → Bool
  | .null => true
  | .ptr tr => validOps tr
end

/-- Follows the spec's words (section 4.3): the operator dispatch with
the fallback branch for an unsupported operator treated as a fatal
internal invariant violation instead of `return -1`. -/
def evalOpMarked (op : Option Char) (left right : Int) : Outcome Int :=
  match op with
  | none => .ub ("read of indeterminate op field")
  | some c =>
    if c = '+' then .ok (wrap32 (left + right))
    else if c = '-' then .ok (wrap32 (left - right))
    else if c = '*' then .ok (wrap32 (left * right))
    else if c = '/' then
      if right = 0 then .ub ("division by zero")
      else .ok (wrap32 (Int.tdiv left right))
    else .ub ("internal invariant violation: unsupported operator")

mutual
/-- Follows the spec's words (section 4.3): identical to `eval2` except
that the fallback branch for an unsupported operator is fatal.  Used to
state that the fallback branch is unreachable under the invariant. -/
def eval2_marked : TreePtr → Outcome Int
  | .null => .ub ("null pointer dereference")
  | .ptr tr =>
    match tr with
    | .mk .null _ _ _ => eval_leaf tr
    | .mk (.ptr _) _ _ _ => eval_binary_marked tr

/-- Follows the spec's words (section 4.3); see `eval2_marked`. -/
def eval_binary_marked : Tree → Outcome Int
  | .mk l r _ op =>
    obind (eval2_marked l) fun left =>
    obind (eval2_marked r) fun right =>
    evalOpMarked op left right
end

/-- On the four supported operators the evaluator's dispatch agrees
with the spec-side variant whose fallback is fatal: the fallback branch
cannot influence the result. -/
theorem evalOp_marked_agree (op : Option Char) (hv : validOpt op = true)
    (left right : Int) : evalOp op left right = evalOpMarked op left right := by
  cases op with
  | none => simp [validOpt] at hv
  | some c =>
    simp only [validOpt, validOpChar, Bool.or_eq_true, decide_eq_true_eq] at hv
    rcases hv with ((rfl | rfl) | rfl) | rfl <;> rfl

/-- Congruence for `obind` in its second argument. -/
theorem obind_congr {α β : Type} (x : Outcome α) {f g : α → Outcome β}
    (h : ∀ a, f a = g a) : obind x f = obind x g := by
  cases x <;> simp [obind, h]

/-- Strong-induction core of the agreement between the evaluator and
its spec-side variant with a fatal fallback. -/
theorem eval2_marked_agree_aux (n : Nat) :
    ∀ tp : TreePtr, sizeOf tp ≤ n → validOpsPtr tp = true → eval2 tp = eval2_marked tp := by
  induction n with
  | zero =>
    intro tp h _
    cases tp with
    | null => simp only [TreePtr.null.sizeOf_spec] at h ; omega
    | ptr tr => simp only [TreePtr.ptr.sizeOf_spec] at h ; omega
  | succ n ih =>
    intro tp hsz hv
    match tp with
    | .null => rfl
    | .ptr (.mk .null r v op) => rfl
    | .ptr (.mk (.ptr l) r v op) =>
      have hL : sizeOf (TreePtr.ptr l) ≤ n := by
        simp only [TreePtr.ptr.sizeOf_spec, Tree.mk.sizeOf_spec] at hsz ⊢
        omega
      have hR : sizeOf r ≤ n := by
        simp only [TreePtr.ptr.sizeOf_spec, Tree.mk.sizeOf_spec] at hsz
        omega
      have hv' : validOpt op = true ∧ validOps l = true ∧ validOpsPtr r = true := by
        simpa [validOpsPtr, validOps, Bool.and_eq_true, and_assoc] using hv
      obtain ⟨hop, hvl, hvr⟩ := hv'
      have e1 : eval2 (TreePtr.ptr l) = eval2_marked (TreePtr.ptr l) :=
        ih (TreePtr.ptr l) hL (by simpa [validOpsPtr] using hvl)
      have e2 : eval2 r = eval2_marked r := ih r hR hvr
      calc eval2 (TreePtr.ptr (Tree.mk (TreePtr.ptr l) r v op))
          = obind (eval2 (TreePtr.ptr l)) (fun left =>
              obind (eval2 r) fun right => evalOp op left right) := rfl
        _ = obind (eval2_marked (TreePtr.ptr l)) (fun left =>
              obind (eval2_marked r) fun right => evalOpMarked op left right) := by
              rw [e1, e2]
              exact obind_congr _ fun left =>
                obind_congr _ fun right => evalOp_marked_agree op hop left right
        _ = eval2_marked (TreePtr.ptr (Tree.mk (TreePtr.ptr l) r v op)) := rfl

/-!  Helper lemmas shared by the claim theorems below. -/

/-- `match_expression` with positive fuel always bails at its first two
steps: `consume` does not advance, so after a successful `consume` of
`(` the lookahead is still the same token, whose type `TOKEN_LPAREN` is
not an operator type. -/
theorem match_expression_spec (fuel : Nat) (p : Parser) :
    match_expression (fuel + 1) p =
      if (parser_current p).t = TOKEN_LPAREN then Outcome.exited (bail_output ("expected op"))
      else Outcome.exited (bail_output ("unexpected token type")) := by
  by_cases h : (parser_current p).t = TOKEN_LPAREN
  · simp [match_expression, consume, h, is_op_token, TOKEN_LPAREN, TOKEN_PLUS,
      TOKEN_MINUS, TOKEN_MUL, TOKEN_DIV]
  · simp [match_expression, consume, h]

/-- No run of `match_expression` returns a tree. -/
theorem match_expression_no_tree (fuel : Nat) (p : Parser) (r : Tree × Parser) :
    match_expression fuel p ≠ .ok r := by
  cases fuel with
  | zero => simp [match_expression]
  | succ k => rw [match_expression_spec] ; split <;> simp

/-- Every call of the public entry point aborts at the very first token
inspection: the lookahead still holds the indeterminate value `g` left
by `tokenizer_init`, so the outcome is a `parser_bail` process exit
whose message depends only on `g`, never on the input text. -/
theorem eval_string_spec (p : List Char) (g : Token) :
    eval_string p g =
      if g.t = TOKEN_LPAREN then Outcome.exited (bail_output ("expected op"))
      else Outcome.exited (bail_output ("unexpected token type")) := by
  have h := match_expression_spec p.length (parser_init (tokenizer_init p g))
  have hc : parser_current (parser_init (tokenizer_init p g)) = g := rfl
  rw [hc] at h
  by_cases hg : g.t = TOKEN_LPAREN
  · simp [eval_string, parser_parse, parser_parse2, h, hg]
  · simp [eval_string, parser_parse, parser_parse2, h, hg]

/-- A successful run of `match_expression2` can only come from the
NUMBER branch: it returns a leaf built from `strtol` of the current
token's span and the advanced parser.  (The LPAREN branch delegates to
`match_binary_expression`, which always bails for the same reason as
`match_expression`.) -/
theorem match_expression2_ok {fuel : Nat} {p : Parser} {tr : Tree} {p' : Parser}
    (h : match_expression2 fuel p = .ok (tr, p')) :
    (parser_current p).t = TOKEN_NUM ∧
      tr = leaf_node (wrap32 (strtol (parser_current p).s)) ∧ p' = parser_advance p := by
  match fuel with
  | 0 => simp [match_expression2] at h
  | fuel + 1 =>
    simp only [match_expression2] at h
    by_cases h1 : (parser_current p).t = TOKEN_LPAREN
    · simp only [h1, if_true] at h
      match fuel with
      | 0 => simp [match_binary_expression] at h
      | k + 1 =>
        simp [match_binary_expression, consume, h1, is_op_token, TOKEN_LPAREN,
          TOKEN_PLUS, TOKEN_MINUS, TOKEN_MUL, TOKEN_DIV] at h
    · by_cases h2 : (parser_current p).t = TOKEN_NUM
      · rw [if_neg h1, if_pos h2] at h
        simp only [Outcome.ok.injEq, Prod.mk.injEq] at h
        exact ⟨h2, h.1.symm, h.2.symm⟩
      · simp [h1, h2] at h

/-!  Concrete fixtures used by witnesses and counterexamples. -/

/-- One concrete candidate for the indeterminate initial token left in
the `t` field by `tokenizer_init`: an EOF-typed token. -/
def gEOF : Token := { t := TOKEN_EOF, s := [], n := 0 }

/-- A well-formed LPAREN token over the source `()`. -/
def T0 : Token := { t := TOKEN_LPAREN, s := ['(', ')'], n := 1 }

/-- A parser state over the source `()` whose current token is `T0`. -/
def P0 : Parser := { tz := { p := ['(', ')'], i := 1, n := 2, t := T0 } }

/-- A NUMBER token with span `5`. -/
def T7 : Token := { t := TOKEN_NUM, s := ['5'], n := 1 }

/-- A parser state over the source `5` whose current token is `T7`. -/
def P7 : Parser := { tz := { p := ['5'], i := 1, n := 1, t := T7 } }

/-!  Claim theorems. -/

/-- C1: evaluating the code at the failing input of the claim.  On the
program's own test input `(+ 1 2)` (asserted equal to 3 by
`test_eval1`, src/main.c:33-35), `eval_string` never returns a value:
for every possible indeterminate initial token `g` it aborts through
`parser_bail` (a process exit), with a message that depends only on
`g`, because the first `consume` inspects the never-assigned lookahead
and `consume` never advances.  In particular it never returns
`Outcome.ok 3` as the claim (and the code's own test) requires. -/
theorem c1_eval_string_never_returns_value (g : Token) :
    eval_string (("(+ 1 2)").toList) g =
      if g.t = TOKEN_LPAREN then Outcome.exited (bail_output ("expected op"))
      else Outcome.exited (bail_output ("unexpected token type")) :=
  eval_string_spec _ g

/-- C2 counterexample: the failure of an `evaluate` call is not a
failure value returned to the caller: on input `x` (with the
indeterminate lookahead equal to `gEOF`) the pipeline ends in
`Outcome.exited`, the model of `parser_bail`'s `fprintf(stderr, ...)`
followed by `exit(1)` — termination of the host process, which the
claim explicitly excludes. -/
theorem c2_counterexample :
    eval_string (("x").toList) gEOF = Outcome.exited (bail_output ("unexpected token type")) := rfl

/-- C2 amended: the first error encountered does abort the pipeline
with no partial result, but it is surfaced by printing
`parser error: <msg>` to stderr and terminating the host process with
`exit(1)` (`parser_bail`), not by returning a failure value: every call
of `eval_string`, on every input and every indeterminate initial
token, ends in an `Outcome.exited` process exit. -/
theorem c2_every_call_exits_process (p : List Char) (g : Token) :
    ∃ m, eval_string p g = Outcome.exited m := by
  rw [eval_string_spec]
  split <;> exact ⟨_, rfl⟩

/-- C3: evaluating the code at the failing input of the claim.  A bare
numeric literal is not accepted: on input `5` the entry point aborts
through `parser_bail` for every indeterminate initial token `g` — the
parse path used by `eval_string` (`parser_parse` → `parser_parse2` →
`match_expression`) starts with `consume(TOKEN_LPAREN)` and has no
NUMBER case, and the rewritten `match_expression2`/`parser_parse3`
that do handle the base case are never called. -/
theorem c3_bare_literal_aborts (g : Token) :
    eval_string (("5").toList) g =
      if g.t = TOKEN_LPAREN then Outcome.exited (bail_output ("expected op"))
      else Outcome.exited (bail_output ("unexpected token type")) :=
  eval_string_spec _ g

/-- C4 counterexample: `consume` does not advance.  On the concrete
state `P0`, whose current token `T0` has the expected kind
`TOKEN_LPAREN`, `consume` returns the token together with the parser
state unchanged — the current token after the call is still `T0`, so
the parser has not advanced past it. -/
theorem c4_counterexample :
    consume P0 TOKEN_LPAREN = Outcome.ok (T0, P0) ∧ parser_current P0 = T0 :=
  ⟨rfl, rfl⟩

/-- C4 amended: `consume(expectedKind)` reads the current token and,
when its kind matches, returns it with the parser state unchanged — it
does not advance (src/main.c:266-272 contains no `parser_advance`
call); when the kind differs it aborts via
`parser_bail("unexpected token type")`. -/
theorem c4_consume_no_advance (p : Parser) (t : Int) :
    ((parser_current p).t = t → consume p t = Outcome.ok (parser_current p, p)) ∧
    ((parser_current p).t ≠ t →
      consume p t = Outcome.exited (bail_output ("unexpected token type"))) := by
  constructor <;> intro h <;> simp [consume, h]

/-- C4 witness: both branches of the amended statement realised on the
concrete state `P0` (expected kind matching, then mismatching). -/
theorem c4_witness :
    consume P0 TOKEN_LPAREN = Outcome.ok (parser_current P0, P0) ∧
    consume P0 TOKEN_RPAREN = Outcome.exited (bail_output ("unexpected token type")) :=
  ⟨(c4_consume_no_advance P0 TOKEN_LPAREN).1 rfl,
   (c4_consume_no_advance P0 TOKEN_RPAREN).2 (by decide)⟩

/-- C5 counterexample: evaluating the tree for `(/ 5 0)` does not
produce a `DivisionByZero` error value: the code performs the division
`left / right` unguarded (src/main.c:325-326), which for a zero right
operand is undefined behaviour (`Outcome.ub`) — a crash, not an error
value surfaced to the caller (`eval_binary` returns a bare `int` and
has no error channel at all). -/
theorem c5_counterexample :
    eval_binary (binary_node '/' (.ptr (leaf_node 5)) (.ptr (leaf_node 0))) =
      Outcome.ub ("division by zero") := rfl

/-- C5 amended: for a `BinaryOp` node with operator `/` whose children
evaluate to `lv` and `rv`, evaluation returns the truncating integer
division (32-bit wrapped) when `rv` is nonzero; when `rv = 0` the code
divides anyway, which is undefined behaviour — no `DivisionByZero`
error value is ever produced. -/
theorem c5_division_semantics (lp rp : TreePtr) (lv rv : Int)
    (hl : eval2 lp = Outcome.ok lv) (hr : eval2 rp = Outcome.ok rv) :
    eval_binary (binary_node '/' lp rp) =
      if rv = 0 then Outcome.ub ("division by zero")
      else Outcome.ok (wrap32 (Int.tdiv lv rv)) := by
  have e : eval_binary (binary_node '/' lp rp) =
      obind (eval2 lp) fun left => obind (eval2 rp) fun right =>
        evalOp (some '/') left right := rfl
  rw [e, hl, hr, obind_ok, obind_ok]
  rfl

/-- C5 witness: the amended statement at the concrete tree `(/ 7 2)`,
whose children evaluate to 7 and 2. -/
theorem c5_witness :
    eval_binary (binary_node '/' (.ptr (leaf_node 7)) (.ptr (leaf_node 2))) =
      if (2 : Int) = 0 then Outcome.ub ("division by zero")
      else Outcome.ok (wrap32 (Int.tdiv 7 2)) :=
  c5_division_semantics (.ptr (leaf_node 7)) (.ptr (leaf_node 2)) 7 2 rfl rfl

/-- C6 counterexample: on the claim's input `(+ 1 2) (+ 3 4)` (with the
indeterminate lookahead equal to `gEOF`) the program does not fail with
a "trailing input" error: it aborts earlier, with
`parser error: unexpected token type`, via a process exit. -/
theorem c6_counterexample :
    eval_string (("(+ 1 2) (+ 3 4)").toList) gEOF =
      Outcome.exited (bail_output ("unexpected token type")) := rfl

/-- C6 amended: on an input with trailing text after a complete
expression the pipeline does fail, but not with "trailing input": for
every indeterminate initial token `g` it aborts at the very first token
inspection with `unexpected token type` (or `expected op` when
`g.t = TOKEN_LPAREN`), so the trailing-input check of `parser_parse2`
(src/main.c:188-190) is never reached from `eval_string`. -/
theorem c6_trailing_check_unreached (g : Token) :
    eval_string (("(+ 1 2) (+ 3 4)").toList) g =
      if g.t = TOKEN_LPAREN then Outcome.exited (bail_output ("expected op"))
      else Outcome.exited (bail_output ("unexpected token type")) :=
  eval_string_spec _ g

/-- C7: every tree a parser run returns satisfies the operator
invariant.  This holds in a strong, degenerate way: `match_expression`
(the path used by `eval_string`) never returns a tree at all, and
`match_expression2` can only return a single leaf (its compound branch
delegates to `match_binary_expression`, which always bails because
`consume` never advances), so no run of either parser ever builds a
branching node with an unsupported operator — `binary_node` is never
reached at all. -/
theorem c7_parser_operator_invariant (fuel : Nat) (p : Parser) (tr : Tree) (p' : Parser)
    (h : match_expression fuel p = Outcome.ok (tr, p') ∨
      match_expression2 fuel p = Outcome.ok (tr, p')) :
    validOps tr = true := by
  rcases h with h | h
  · exact absurd h (match_expression_no_tree fuel p (tr, p'))
  · obtain ⟨-, htr, -⟩ := match_expression2_ok h
    subst htr
    rfl

/-- C7 witness: a successful parser run realising the hypothesis —
`match_expression2` on the NUMBER-lookahead state `P7` returns the leaf
for `5`, which satisfies the invariant. -/
theorem c7_witness : validOps (leaf_node (wrap32 (strtol ['5']))) = true :=
  c7_parser_operator_invariant 1 P7 (leaf_node (wrap32 (strtol ['5'])))
    (parser_advance P7) (Or.inr rfl)

/-- C8 counterexample: a node with the unsupported operator `x` is not
treated as a fatal invariant violation: `eval_binary` returns the
sentinel `-1` as an ordinary recoverable value, indistinguishable from
a computed result (src/main.c:327-330, `return -1`). -/
theorem c8_counterexample :
    eval_binary (binary_node 'x' (.ptr (leaf_node 1)) (.ptr (leaf_node 2))) =
      Outcome.ok (-1) := rfl

/-- C8 amended: under the precondition that every branching node
carries one of the four supported operators, the evaluator's fallback
branch is unreachable — evaluation agrees with the spec-side variant
`eval2_marked` whose fallback is a fatal invariant violation; when a
node with another operator does occur, the code instead returns the
ordinary value `-1` (see the counterexample). -/
theorem c8_fallback_unreachable (tp : TreePtr) (h : validOpsPtr tp = true) :
    eval2 tp = eval2_marked tp :=
  eval2_marked_agree_aux (sizeOf tp) tp le_rfl h

/-- C8 witness: the agreement realised on the concrete valid tree
`(+ 1 2)`. -/
theorem c8_witness :
    validOpsPtr (.ptr (binary_node '+' (.ptr (leaf_node 1)) (.ptr (leaf_node 2)))) = true ∧
    eval2 (.ptr (binary_node '+' (.ptr (leaf_node 1)) (.ptr (leaf_node 2)))) =
      eval2_marked (.ptr (binary_node '+' (.ptr (leaf_node 1)) (.ptr (leaf_node 2)))) :=
  ⟨rfl, c8_fallback_unreachable (.ptr (binary_node '+' (.ptr (leaf_node 1)) (.ptr (leaf_node 2)))) rfl⟩

/-- C9: the parse path used by the public entry point
(`parser_parse` → `parser_parse2` → `match_expression`) returns no tree
whatsoever — with positive fuel it always aborts at its first two
steps, so in particular no `Literal` leaf (and indeed no node at all)
is ever constructed or returned through `eval_string`; every tree it
returns is vacuously a branching node.  The second conjunct gives the
resulting behaviour of `eval_string` itself on every input. -/
theorem c9_public_path_returns_no_tree (fuel : Nat) (p : Parser) (inp : List Char) (g : Token) :
    match_expression (fuel + 1) p =
      (if (parser_current p).t = TOKEN_LPAREN then Outcome.exited (bail_output ("expected op"))
       else Outcome.exited (bail_output ("unexpected token type"))) ∧
    eval_string inp g =
      (if g.t = TOKEN_LPAREN then Outcome.exited (bail_output ("expected op"))
       else Outcome.exited (bail_output ("unexpected token type"))) :=
  ⟨match_expression_spec fuel p, eval_string_spec inp g⟩

/-- C10: the token the parser first inspects is the indeterminate
initial value of the tokenizer's current-token field, not anything
derived from the input text: `tokenizer_current` right after
`tokenizer_init` returns exactly the garbage value `g` (the field the
source never assigns — `tokenizer_advance` is declared but never
defined, and `tokenizer_init` deliberately leaves `t` undefined), and
consequently the entire outcome of `eval_string` is the same for every
two input strings, depending only on `g`. -/
theorem c10_first_token_indeterminate (p q : List Char) (g : Token) :
    tokenizer_current (tokenizer_init p g) = g ∧ eval_string p g = eval_string q g := by
  refine ⟨rfl, ?_⟩
  rw [eval_string_spec, eval_string_spec]

end AppendOnly
